import Mathlib

/-
Verification of the Interview Coach behavioral-feedback system.

Part I embeds the React application logic of the frontend (the socket
"analysis" listener, lip-sync computation, history capping, session
end/restart handlers and the end-of-session summary reduction) as pure
functions over rational numbers.  JavaScript numbers are modelled as ℚ;
`Math.round` is modelled as round-half-up (floor (x + 1/2)), which is the
JavaScript semantics for non-negative and positive-half arguments.

Part II models the backend Behavioral Signal Engine
(backend/cv_utils.py, class VideoProcessor), which is not part of the
available sources; it is modelled from the specification, as flagged on
each of its definitions.
-/

/-- JavaScript Math.round, modelled over ℚ as floor (x + 1/2). -/
def jsRound (q : ℚ) : ℤ := ⌊q + 1 / 2⌋

/-- The per-frame metrics object held in React state (`metrics`) and carried
by `analysis` payloads.  Every field is optional because a payload carries
only the keys the backend chose to send, and the code guards each read with
`|| 0` / `?? ...` / truthiness checks. -/
structure Metrics where
  confidence_score : Option ℚ
  blink_count : Option ℕ
  head_pitch : Option ℚ
  head_yaw : Option ℚ
  gaze_deviation : Option ℚ
  mood_score : Option ℚ
  mood_label : Option String
  mouth_activity : Option ℚ
  microexpression : Option String
  warning : Option String
deriving DecidableEq

/-- `{ ...prev, ...payload }`: keys present in the payload override `prev`. -/
def mergeMetrics (prev payload : Metrics) : Metrics where
  confidence_score := payload.confidence_score <|> prev.confidence_score
  blink_count := payload.blink_count <|> prev.blink_count
  head_pitch := payload.head_pitch <|> prev.head_pitch
  head_yaw := payload.head_yaw <|> prev.head_yaw
  gaze_deviation := payload.gaze_deviation <|> prev.gaze_deviation
  mood_score := payload.mood_score <|> prev.mood_score
  mood_label := payload.mood_label <|> prev.mood_label
  mouth_activity := payload.mouth_activity <|> prev.mouth_activity
  microexpression := payload.microexpression <|> prev.microexpression
  warning := payload.warning <|> prev.warning

/-- One entry of `metricsHistory`: the merged metrics object spread together
with `timestamp`, `speech_energy` and `lip_sync_score` (App.jsx, "analysis"
listener). -/
structure HistEntry where
  m : Metrics
  timestamp : ℚ
  speech_energy : ℚ
  lip_sync_score : Option ℚ
deriving DecidableEq

/-- The `answerStats` record passed to `summarizeHistory`. -/
structure AnswerStats where
  sampleScore : Option ℚ
  noveltyScore : Option ℚ
  matchScore : Option ℚ
deriving DecidableEq

/-- The summary object returned by `summarizeHistory`. -/
structure SummaryR where
  durationSeconds : ℚ
  durationLabel : String
  avgConfidence : ℤ
  attention : ℤ
  blinkTotal : ℕ
  blinkRate : ℚ
  warnings : ℕ
  headMovementEvents : ℕ
  suggestions : List String
  avgMood : ℤ
  compositeScore : ℤ
  sampleScore : ℤ
  noveltyScore : ℤ
  matchScore : ℤ
  lipSyncAverage : ℤ
deriving DecidableEq

/-- `computeLipSync` (App.jsx): score = max(0, 100 - |mouthActivity - speechEnergy|),
status from fixed bands.  The possibly-absent argument is modelled as an
Option; `mouthActivity || 0` agrees with `getD 0` on every rational. -/
def computeLipSync (mouthActivity : Option ℚ) (speechEnergy : ℚ) : ℚ × String :=
  let diff := |mouthActivity.getD 0 - speechEnergy|
  let score := max 0 (100 - diff)
  let status := if 70 < score then "Synced" else if 45 < score then "Loosely Synced" else "Off-sync"
  (score, status)

/-- `next.length > cap ? next.slice(-cap) : next` after appending one element;
used with cap = 600 for `metricsHistory`. -/
def capPush {α : Type} (cap : ℕ) (h : List α) (e : α) : List α :=
  let next := h ++ [e]
  if cap < next.length then next.drop (next.length - cap) else next

/-- `summarizeHistory` (App.jsx lines 186-270), for a non-empty history.
`first :: rest` is the history list. -/
def summarizeCore (first : HistEntry) (rest : List HistEntry) (answerStats : AnswerStats)
    (lipSyncScore : ℚ) : SummaryR :=
  let hist := first :: rest
  let len : ℚ := (hist.length : ℚ)
  let last := List.getLast hist (List.cons_ne_nil first rest)
  let startTime := first.timestamp
  let endTime := last.timestamp
  let durationMs := max 0 (endTime - startTime)
  let durationSeconds := max 1 (durationMs / 1000)
  let avgConfidence := (hist.foldl (fun sum it => sum + it.m.confidence_score.getD 0) 0) / len
  let warnings := (hist.filter (fun it => it.m.warning.isSome)).length
  let avgGaze := (hist.foldl (fun sum it => sum + it.m.gaze_deviation.getD 0) 0) / len
  let attention : ℤ := max 0 (min 100 (jsRound (100 - (warnings : ℚ) * 4 - avgGaze * 140)))
  let blinkTotal : ℕ := last.m.blink_count.getD 0
  let blinkRate : ℚ :=
    if 0 < durationMs then ((jsRound (((blinkTotal : ℚ) / (durationMs / 60000)) * 10) : ℚ)) / 10 else 0
  let headMovementEvents :=
    (hist.filter (fun it =>
      decide (18 < |it.m.head_pitch.getD 0|) || decide (22 < |it.m.head_yaw.getD 0|))).length
  let moodValues := hist.filterMap (fun it => it.m.mood_score)
  let avgMood : ℚ :=
    if 0 < moodValues.length then (moodValues.foldl (· + ·) 0) / (moodValues.length : ℚ) else 60
  let lipValues := hist.filterMap (fun it => it.lip_sync_score)
  let avgLipSync : ℚ :=
    if 0 < lipValues.length then (lipValues.foldl (· + ·) 0) / (lipValues.length : ℚ) else lipSyncScore
  let minutes : ℤ := ⌊durationSeconds / 60⌋
  let seconds : ℤ := max 1 (jsRound (durationSeconds - 60 * (minutes : ℚ)))
  let durationLabel :=
    if minutes ≠ 0 then toString minutes ++ "m " ++ toString seconds ++ "s"
    else toString seconds ++ "s"
  let suggestions :=
    (if attention < 70 then ["Lock your gaze on the camera to project stronger engagement."] else [])
    ++ (if 25 < blinkRate then ["Slow your blinking cadence to convey calmness."] else [])
    ++ (if 10 < headMovementEvents then ["Anchor your posture—excessive nodding was detected."] else [])
  let suggestions :=
    if suggestions.isEmpty then ["Solid session! Keep iterating on your stories for mastery."]
    else suggestions
  let compositeScore :=
    jsRound (avgConfidence * 0.33 + (attention : ℚ) * 0.18
      + (answerStats.sampleScore.getD 0) * 0.14
      + (answerStats.noveltyScore.getD 0) * 0.1
      + avgMood * 0.12 + avgLipSync * 0.08
      + max 0 (100 - (warnings : ℚ) * 3) * 0.05)
  { durationSeconds := durationSeconds
    durationLabel := durationLabel
    avgConfidence := jsRound avgConfidence
    attention := attention
    blinkTotal := blinkTotal
    blinkRate := blinkRate
    warnings := warnings
    headMovementEvents := headMovementEvents
    suggestions := suggestions
    avgMood := jsRound avgMood
    compositeScore := compositeScore
    sampleScore := jsRound (answerStats.sampleScore.getD 0)
    noveltyScore := jsRound (answerStats.noveltyScore.getD 0)
    matchScore := jsRound (answerStats.matchScore.getD 0)
    lipSyncAverage := jsRound avgLipSync }

/-- `summarizeHistory` (App.jsx): `if (!history.length) return null` then the
stateless reduction above.  `lipSyncScore` is the captured current lip-sync
value used as fallback when no entry carries a lip-sync score. -/
def summarizeHistory (history : List HistEntry) (answerStats : AnswerStats)
    (lipSyncScore : ℚ) : Option SummaryR :=
  match history with
  | [] => none
  | first :: rest => some (summarizeCore first rest answerStats lipSyncScore)

/-- The React state of App.jsx that the embedded handlers read or write.
`sessionActive` models both the state value and `sessionActiveRef`, which
mirrors it (App.jsx lines 74-76).  UI-only fields (question list,
missing-keyword chips, sample-answer toggle) are omitted. -/
structure AppState where
  metrics : Metrics
  metricsHistory : List HistEntry
  sessionActive : Bool
  sessionSummary : Option SummaryR
  lipSyncScore : ℚ
  lipSyncStatus : String
  speechEnergy : ℚ
  matchScore : ℚ
  sampleScore : ℚ
  noveltyScore : ℚ
deriving DecidableEq

/-- Initial `metrics` state (App.jsx lines 24-27). -/
def initialMetrics : Metrics :=
  { confidence_score := some 100, blink_count := some 0, head_pitch := none,
    head_yaw := none, gaze_deviation := none, mood_score := none,
    mood_label := none, mouth_activity := none, microexpression := none,
    warning := none }

/-- Initial App state. -/
def initialAppState : AppState :=
  { metrics := initialMetrics, metricsHistory := [], sessionActive := true,
    sessionSummary := none, lipSyncScore := 100, lipSyncStatus := "Synced",
    speechEnergy := 0, matchScore := 0, sampleScore := 0, noveltyScore := 0 }

/-- The socket "analysis" listener (App.jsx lines 105-137): merge the payload
into `metrics`, recompute lip sync from the freshest mouth activity, and,
only while the session is active, append the entry to `metricsHistory`
capped at 600.  `now` is `Date.now()`. -/
def analysisListener (st : AppState) (payload : Metrics) (now : ℚ) : AppState :=
  let updated := mergeMetrics st.metrics payload
  let mouthActivity :=
    payload.mouth_activity.getD (updated.mouth_activity.getD (st.metrics.mouth_activity.getD 0))
  let ls := computeLipSync (some mouthActivity) st.speechEnergy
  let entry : HistEntry :=
    { m := updated, timestamp := now, speech_energy := st.speechEnergy,
      lip_sync_score := some ls.1 }
  let history :=
    if st.sessionActive then capPush 600 st.metricsHistory entry else st.metricsHistory
  { st with metrics := updated, lipSyncScore := ls.1, lipSyncStatus := ls.2,
            metricsHistory := history }

/-- `handleEndSession` (App.jsx lines 272-282): early-return when already
inactive, otherwise deactivate and compute the summary from the retained
history.  The external `stop()` call (speech recognition) has no effect on
the embedded state. -/
def handleEndSession (st : AppState) : AppState :=
  if st.sessionActive = false then st
  else
    { st with
      sessionActive := false,
      sessionSummary :=
        summarizeHistory st.metricsHistory
          { sampleScore := some st.sampleScore, noveltyScore := some st.noveltyScore,
            matchScore := some st.matchScore } st.lipSyncScore }

/-- `handleRestart` (App.jsx lines 284-300).  External calls
(`resetTranscript`, `start()`) have no effect on the embedded state. -/
def handleRestart (st : AppState) : AppState :=
  { st with
    sessionSummary := none, metricsHistory := [],
    metrics :=
      { confidence_score := some 100, blink_count := some 0, head_pitch := none,
        head_yaw := none, gaze_deviation := none, mood_score := none,
        mood_label := none, mouth_activity := none, microexpression := none,
        warning := none },
    matchScore := 0, sampleScore := 0, noveltyScore := 0,
    lipSyncScore := 100, lipSyncStatus := "Synced", sessionActive := true }

/-- A payload carrying no keys. -/
def emptyPayload : Metrics :=
  { confidence_score := none, blink_count := none, head_pitch := none,
    head_yaw := none, gaze_deviation := none, mood_score := none,
    mood_label := none, mouth_activity := none, microexpression := none,
    warning := none }

/-
Part II: the Behavioral Signal Engine (backend/cv_utils.py, class
VideoProcessor).  The backend sources are not available; every definition in
this part is modelled from the specification, as its doc comment states.
-/

/-- Modelled from the spec: a 3D facial landmark point in image-normalized
units (spec section 3, LandmarkFrame). -/
structure Point3 where
  x : ℚ
  y : ℚ
  z : ℚ
deriving DecidableEq

/-- Modelled from the spec: the semantic landmark roles listed in section 3
(eye corners and two lid pairs per eye, iris centers, nose tip, ears, mouth
corners/top/bottom, brow points).  The backend file defining the concrete
FaceMesh index sets is missing from the sources. -/
inductive Role where
  | leftEyeOuter | leftEyeInner | leftEyeUpperA | leftEyeLowerA | leftEyeUpperB | leftEyeLowerB
  | rightEyeOuter | rightEyeInner | rightEyeUpperA | rightEyeLowerA | rightEyeUpperB | rightEyeLowerB
  | leftIris | rightIris
  | noseTip | leftEar | rightEar
  | mouthLeft | mouthRight | mouthTop | mouthBottom
  | leftBrow | rightBrow
deriving DecidableEq

/-- Modelled from the spec: a LandmarkFrame is an ordered sequence of named
3D points (spec section 3). -/
abbrev LandmarkFrame : Type := List (Role × Point3)

/-- Modelled from the spec: every role of section 3 is required for
extraction (section 4.1: extraction fails if any required landmark role is
absent from the frame). -/
def requiredRoles : List Role :=
  [Role.leftEyeOuter, Role.leftEyeInner, Role.leftEyeUpperA, Role.leftEyeLowerA,
   Role.leftEyeUpperB, Role.leftEyeLowerB,
   Role.rightEyeOuter, Role.rightEyeInner, Role.rightEyeUpperA, Role.rightEyeLowerA,
   Role.rightEyeUpperB, Role.rightEyeLowerB,
   Role.leftIris, Role.rightIris, Role.noseTip, Role.leftEar, Role.rightEar,
   Role.mouthLeft, Role.mouthRight, Role.mouthTop, Role.mouthBottom,
   Role.leftBrow, Role.rightBrow]

/-- Vertical distance of two landmark points (spec section 4.1 measures the
lid and mouth distances vertically). -/
def vdist (a b : Point3) : ℚ := |a.y - b.y|

/-- Horizontal distance of two landmark points. -/
def hdist (a b : Point3) : ℚ := |a.x - b.x|

/-- Look a role up in a frame, with a zero default; only used after the
presence of every required role has been checked. -/
def pointOf (f : LandmarkFrame) (r : Role) : Point3 :=
  (List.lookup r f).getD ⟨0, 0, 0⟩

/-- Modelled from the spec: the struct of raw per-frame measurements
produced by the Geometry Extractors (section 4.1). -/
structure Geometry where
  earAvg : ℚ
  pitch : ℚ
  yaw : ℚ
  gazeOffset : ℚ
  smile : ℚ
  browGap : ℚ
  mouthAct : ℚ
deriving DecidableEq

/-- Modelled from the spec (section 4.1): per-eye EAR is the mean of the two
vertical lid-distance pairs divided by twice the horizontal eye-corner
distance; iris-to-corner ratio is the iris-to-inner-corner distance divided
by eye width; smile is mouth width over height, mouth activity the
reciprocal; brow gap is the brow-to-eye distance normalized by inter-ocular
distance.  The spec defines yaw as the angle in degrees of the ear-to-ear
vector's horizontal component and pitch analogously from the
nose-tip-to-ear-midpoint vector's vertical component; the trigonometric
degree conversion is modelled linearly (angle proportional to the component
ratio), since every consumer compares the result against fixed thresholds
only.  Division by zero yields 0 in ℚ, matching the degenerate-geometry rule
of section 7 (a degenerate sub-metric is dropped, never an error). -/
def computeGeometry (f : LandmarkFrame) : Geometry :=
  let p := pointOf f
  let earLeft :=
    (vdist (p Role.leftEyeUpperA) (p Role.leftEyeLowerA)
      + vdist (p Role.leftEyeUpperB) (p Role.leftEyeLowerB))
      / (2 * hdist (p Role.leftEyeOuter) (p Role.leftEyeInner))
  let earRight :=
    (vdist (p Role.rightEyeUpperA) (p Role.rightEyeLowerA)
      + vdist (p Role.rightEyeUpperB) (p Role.rightEyeLowerB))
      / (2 * hdist (p Role.rightEyeOuter) (p Role.rightEyeInner))
  let irisLeft :=
    hdist (p Role.leftIris) (p Role.leftEyeInner)
      / hdist (p Role.leftEyeOuter) (p Role.leftEyeInner)
  let irisRight :=
    hdist (p Role.rightIris) (p Role.rightEyeInner)
      / hdist (p Role.rightEyeOuter) (p Role.rightEyeInner)
  let mouthWidth := hdist (p Role.mouthLeft) (p Role.mouthRight)
  let mouthHeight := vdist (p Role.mouthTop) (p Role.mouthBottom)
  let interOcular := hdist (p Role.leftEyeOuter) (p Role.rightEyeOuter)
  let earMidY := ((p Role.leftEar).y + (p Role.rightEar).y) / 2
  { earAvg := (earLeft + earRight) / 2
    pitch := 90 * ((p Role.noseTip).y - earMidY)
    yaw := 90 * (((p Role.rightEar).z - (p Role.leftEar).z)
      / hdist (p Role.leftEar) (p Role.rightEar))
    gazeOffset := (irisLeft + irisRight) / 2 - 0.5
    smile := mouthWidth / mouthHeight
    browGap :=
      ((vdist (p Role.leftBrow) (p Role.leftEyeUpperA)
        + vdist (p Role.rightBrow) (p Role.rightEyeUpperA)) / 2) / interOcular
    mouthAct := mouthHeight / mouthWidth }

/-- Modelled from the spec (section 4.1): the Geometry Extractors are a pure
function that fails, returning no measurement, exactly when a required
landmark role is absent from the frame — the engine's only input-validation
failure mode. -/
def extractGeometry (f : LandmarkFrame) : Option Geometry :=
  if requiredRoles.all (fun r => (List.lookup r f).isSome) then some (computeGeometry f)
  else none

/-- Modelled from the spec (section 4.2): the blink state machine's state is
the cumulative blink count and the consecutive-low-EAR counter; the OPEN /
CLOSED state is `consecLow = 0` versus `consecLow > 0`. -/
structure BlinkState where
  blinkCount : ℕ
  consecLow : ℕ
deriving DecidableEq

/-- Modelled from the spec (section 4.2): below the 0.25 threshold the
low-EAR run is extended; on reopening a blink commits (blink count + 1)
exactly when the preceding CLOSED run lasted at least 3 consecutive frames,
and the run counter resets. -/
def blinkStep (s : BlinkState) (ear : ℚ) : BlinkState :=
  if ear < 0.25 then { s with consecLow := s.consecLow + 1 }
  else if 3 ≤ s.consecLow then { blinkCount := s.blinkCount + 1, consecLow := 0 }
  else { s with consecLow := 0 }

/-- Modelled from the spec (section 4.4): every processed frame applies
exactly one of two rules — a penalty (base multiplier 1.4 scaled per
triggering condition, floored at 20) when a triggering condition is active,
otherwise a recovery of 1.0 capped at 100.  The per-condition scale factors
are tunable parameters described only qualitatively in the spec; the values
here are representative (movement 1.5, gaze 1.2, rapid blinking 1). -/
def confUpdate (c : ℚ) (excessiveMovement lookingAway rapidBlink : Bool) : ℚ :=
  if excessiveMovement || lookingAway || rapidBlink then
    max 20 (c - 1.4 * (if excessiveMovement then 1.5 else if lookingAway then 1.2 else 1))
  else min 100 (c + 1)

/-- Modelled from the spec (section 4.5): inputs of the mood score. -/
structure MoodInputs where
  smile : ℚ
  browGap : ℚ
  pitch : ℚ
  yaw : ℚ
  gazeOffset : ℚ
deriving DecidableEq

/-- Modelled from the spec (section 4.5): the neutral baseline, the four
weights and the smile/brow reference values are tunable parameters. -/
structure MoodWeights where
  baseline : ℚ
  w1 : ℚ
  w2 : ℚ
  w3 : ℚ
  w4 : ℚ
  smileNeutral : ℚ
  smileCap : ℚ
  browNeutral : ℚ
deriving DecidableEq

/-- Representative values for the tunable mood parameters. -/
def defaultMoodWeights : MoodWeights :=
  { baseline := 60, w1 := 20, w2 := 15, w3 := 0.5, w4 := 80,
    smileNeutral := 1.5, smileCap := 1, browNeutral := 0.25 }

/-- Modelled from the spec (section 4.5): mood score = clamp to [0,100] of
baseline + w1 * saturated smile delta + w2 * brow-gap delta
- w3 * (|pitch| + |yaw|) - w4 * gaze-deviation magnitude. -/
def moodScore (w : MoodWeights) (i : MoodInputs) : ℚ :=
  let raw := w.baseline + w.w1 * min w.smileCap (i.smile - w.smileNeutral)
    + w.w2 * (i.browGap - w.browNeutral)
    - w.w3 * (|i.pitch| + |i.yaw|) - w.w4 * |i.gazeOffset|
  max 0 (min 100 raw)

/-- Modelled from the spec (section 4.5): score > 70 maps to Engaged,
40 < score ≤ 70 to Neutral, score ≤ 40 to Tense (70 and 40 belong to the
lower band). -/
def moodLabel (s : ℚ) : String :=
  if 70 < s then "Engaged" else if 40 < s then "Neutral" else "Tense"

/-- Modelled from the spec (section 3): the per-frame MetricsSnapshot
emitted by the engine. -/
structure Snapshot where
  confidence_score : ℚ
  blink_count : ℕ
  head_pitch : ℚ
  head_yaw : ℚ
  gaze_deviation : ℚ
  mood_score : ℚ
  mood_label : String
  mouth_activity : ℚ
  microexpression : Option String
  warning : Option String
deriving DecidableEq

/-- Modelled from the spec (section 3): the per-session SessionState — the
12-sample EAR window, the consecutive-low-EAR counter, the cumulative blink
count, the confidence score, the last stable smile ratio and the two
cooldown counters. -/
structure SessionState where
  earWindow : List ℚ
  consecLow : ℕ
  blinkCount : ℕ
  confidence : ℚ
  lastSmile : ℚ
  framesSinceMicro : ℕ
  framesSinceMoveWarn : ℕ
deriving DecidableEq

/-- Modelled from the spec (section 6): session start allocates the state
with confidence 100 and blink count 0. -/
def initSession : SessionState :=
  { earWindow := [], consecLow := 0, blinkCount := 0, confidence := 100,
    lastSmile := 0, framesSinceMicro := 0, framesSinceMoveWarn := 0 }

/-- Tunable gaze-deviation band beyond which the frame counts as looking
away (spec section 4.3 gives it only qualitatively). -/
def gazeBand : ℚ := 0.1

/-- Tunable micro-expression sensitivity threshold (spec section 4.5). -/
def microSensitivity : ℚ := 0.15

/-- Modelled from the spec (sections 4.1-4.6 and 5): one engine update.
A frame is either a LandmarkFrame or an explicit no-face signal (`none`),
which is treated identically to a missing-landmark extraction failure:
scoring is skipped and the state is returned untouched, with no snapshot
and no error.  On a measured frame the blink machine, the 12-sample EAR
window, the confidence dynamics, the mood scorer, the micro-expression
detector (cooldown 25 frames) and the warning gate (movement cooldown 15
frames, priority gaze > movement > blink) all advance.  The rapid-blink
ceiling, described in the spec only as a blink rate over a short window, is
modelled as more than a third of the EAR window being below threshold. -/
def processFrame (s : SessionState) (input : Option LandmarkFrame) :
    SessionState × Option Snapshot :=
  match input.bind extractGeometry with
  | none => (s, none)
  | some g =>
    let b := blinkStep ⟨s.blinkCount, s.consecLow⟩ g.earAvg
    let commit : Bool := decide (0.25 ≤ g.earAvg) && decide (3 ≤ s.consecLow)
    let earWindow := capPush 12 s.earWindow g.earAvg
    let excessiveMovement : Bool := decide (18 < |g.pitch|) || decide (22 < |g.yaw|)
    let lookingAway : Bool := decide (gazeBand < |g.gazeOffset|)
    let rapidBlink : Bool :=
      commit && decide (earWindow.length ≤ 3 * (earWindow.filter (fun x => decide (x < 0.25))).length)
    let confidence := confUpdate s.confidence excessiveMovement lookingAway rapidBlink
    let mood := moodScore defaultMoodWeights
      { smile := g.smile, browGap := g.browGap, pitch := g.pitch, yaw := g.yaw,
        gazeOffset := g.gazeOffset }
    let microFire : Bool :=
      decide (microSensitivity < |g.smile - s.lastSmile|) && decide (25 < s.framesSinceMicro)
    let warnFire : Bool :=
      (excessiveMovement || lookingAway || rapidBlink) && decide (15 ≤ s.framesSinceMoveWarn)
    let warning : Option String :=
      if warnFire then
        (if lookingAway then some "Maintain eye contact with the camera."
         else if excessiveMovement then some "Too much head movement detected."
         else some "Rapid blinking detected.")
      else none
    ({ earWindow := earWindow, consecLow := b.consecLow, blinkCount := b.blinkCount,
       confidence := confidence,
       lastSmile := if microFire then g.smile else s.lastSmile,
       framesSinceMicro := if microFire then 0 else s.framesSinceMicro + 1,
       framesSinceMoveWarn := if warnFire then 0 else s.framesSinceMoveWarn + 1 },
     some { confidence_score := confidence, blink_count := b.blinkCount,
            head_pitch := g.pitch, head_yaw := g.yaw,
            gaze_deviation := |g.gazeOffset|,
            mood_score := mood, mood_label := moodLabel mood,
            mouth_activity := max 0 (min 100 (100 * g.mouthAct)),
            microexpression := if microFire then some "Micro-expression detected" else none,
            warning := warning })

/-- Applying the engine to a whole frame sequence, in arrival order. -/
def runEngine (s : SessionState) (inputs : List (Option LandmarkFrame)) : SessionState :=
  inputs.foldl (fun st f => (processFrame st f).1) s

/-- A frame carrying every required role (all points at the origin), used as
a concrete measured input. -/
def fullFrameEx : LandmarkFrame := requiredRoles.map (fun r => (r, ⟨0, 0, 0⟩))

/-
Helper lemmas.
-/

theorem blinkStep_count_le (s : BlinkState) (e : ℚ) :
    s.blinkCount ≤ (blinkStep s e).blinkCount := by
  unfold blinkStep
  split_ifs <;> simp

theorem blinkStep_count_eq (s : BlinkState) (e : ℚ) :
    (blinkStep s e).blinkCount
      = s.blinkCount + (if 0.25 ≤ e ∧ 3 ≤ s.consecLow then 1 else 0) := by
  by_cases h1 : e < 0.25
  · have hnot : ¬ ((0.25 : ℚ) ≤ e) := not_le.2 h1
    unfold blinkStep
    simp [h1, hnot]
  · by_cases h2 : 3 ≤ s.consecLow
    · unfold blinkStep
      simp [h1, h2, not_lt.1 h1]
    · unfold blinkStep
      simp [h1, h2]

theorem blinkRun_closed (run : List ℚ) :
    ∀ s : BlinkState, (∀ x ∈ run, x < 0.25) →
      run.foldl blinkStep s = ⟨s.blinkCount, s.consecLow + run.length⟩ := by
  induction run with
  | nil => intro s _; simp
  | cons a l ih =>
    intro s h
    have ha : blinkStep s a = { s with consecLow := s.consecLow + 1 } := by
      unfold blinkStep
      rw [if_pos (h a (List.mem_cons_self a l))]
    simp only [List.foldl_cons, ha]
    rw [ih _ (fun x hx => h x (List.mem_cons_of_mem a hx))]
    simp only [List.length_cons]
    congr 1
    omega

theorem confUpdate_bounds (c : ℚ) (a b r : Bool) (h1 : 20 ≤ c) (h2 : c ≤ 100) :
    20 ≤ confUpdate c a b r ∧ confUpdate c a b r ≤ 100 := by
  unfold confUpdate
  split_ifs
  · exact ⟨le_max_left _ _, max_le (by norm_num) (by linarith)⟩
  · exact ⟨le_max_left _ _, max_le (by norm_num) (by linarith)⟩
  · exact ⟨le_max_left _ _, max_le (by norm_num) (by linarith)⟩
  · exact ⟨le_min (by norm_num) (by linarith), min_le_left _ _⟩

theorem moodScore_bounds (w : MoodWeights) (i : MoodInputs) :
    0 ≤ moodScore w i ∧ moodScore w i ≤ 100 := by
  unfold moodScore
  exact ⟨le_max_left _ _, max_le (by norm_num) (min_le_left _ _)⟩

theorem capPush_length {α : Type} (cap : ℕ) (h : List α) (e : α) :
    (capPush cap h e).length ≤ cap := by
  simp only [capPush]
  split_ifs with hc
  · simp only [List.length_drop]
    omega
  · simp only [List.length_append, List.length_singleton] at hc ⊢
    omega

theorem capPush_drop {α : Type} (cap : ℕ) (hcap : 1 ≤ cap) (L : List α) (e : α) :
    capPush cap (L.drop (L.length - cap)) e = (L ++ [e]).drop ((L ++ [e]).length - cap) := by
  by_cases hn : L.length < cap
  · have h0 : L.length - cap = 0 := by omega
    have h1 : (L ++ [e]).length - cap = 0 := by
      simp only [List.length_append, List.length_singleton]
      omega
    rw [h0, h1, List.drop_zero, List.drop_zero]
    have hnot : ¬ cap < (L ++ [e]).length := by
      simp only [List.length_append, List.length_singleton]
      omega
    simp only [capPush]
    rw [if_neg hnot]
  · have hcl : cap ≤ L.length := le_of_not_lt hn
    have hlen : (L.drop (L.length - cap)).length = cap := by
      rw [List.length_drop]
      omega
    have hlt : cap < (L.drop (L.length - cap) ++ [e]).length := by
      simp only [List.length_append, List.length_singleton, hlen]
      omega
    simp only [capPush]
    rw [if_pos hlt]
    have hsub : (L.drop (L.length - cap) ++ [e]).length - cap = 1 := by
      simp only [List.length_append, List.length_singleton, hlen]
      omega
    rw [hsub]
    have hone : (1 : ℕ) ≤ (L.drop (L.length - cap)).length := by omega
    rw [List.drop_append_of_le_length hone, List.drop_drop]
    have hidx : (L ++ [e]).length - cap = L.length - cap + 1 := by
      simp only [List.length_append, List.length_singleton]
      omega
    rw [hidx]
    have hk : L.length - cap + 1 ≤ L.length := by omega
    rw [List.drop_append_of_le_length hk]

theorem foldl_capPush {α : Type} (cap : ℕ) (hcap : 1 ≤ cap) (es : List α) :
    es.foldl (capPush cap) [] = es.drop (es.length - cap) := by
  induction es using List.reverseRecOn with
  | nil => simp
  | append_singleton l e ih =>
    rw [List.foldl_append, List.foldl_cons, List.foldl_nil, ih]
    exact capPush_drop cap hcap l e

theorem processFrame_blink_le (s : SessionState) (input : Option LandmarkFrame) :
    s.blinkCount ≤ ((processFrame s input).1).blinkCount := by
  cases hg : input.bind extractGeometry with
  | none => simp [processFrame, hg]
  | some g =>
    simp only [processFrame, hg]
    exact blinkStep_count_le ⟨s.blinkCount, s.consecLow⟩ g.earAvg

theorem processFrame_conf_bounds (s : SessionState) (input : Option LandmarkFrame)
    (h1 : 20 ≤ s.confidence) (h2 : s.confidence ≤ 100) :
    20 ≤ ((processFrame s input).1).confidence ∧ ((processFrame s input).1).confidence ≤ 100 := by
  cases hg : input.bind extractGeometry with
  | none =>
    simp only [processFrame, hg]
    exact ⟨h1, h2⟩
  | some g =>
    simp only [processFrame, hg]
    exact confUpdate_bounds s.confidence _ _ _ h1 h2

/-- C1: within a session, the cumulative blink count never decreases — over a
single processed frame and over any sequence of frame updates — and, being a
natural number, the emitted blink_count is a non-negative integer. -/
theorem blink_count_monotone :
    (∀ (s : SessionState) (input : Option LandmarkFrame),
        s.blinkCount ≤ ((processFrame s input).1).blinkCount)
    ∧ (∀ (s : SessionState) (inputs : List (Option LandmarkFrame)),
        s.blinkCount ≤ (runEngine s inputs).blinkCount) := by
  constructor
  · exact processFrame_blink_le
  · intro s inputs
    induction inputs generalizing s with
    | nil => exact le_refl _
    | cons a l ih =>
      calc s.blinkCount ≤ ((processFrame s a).1).blinkCount := processFrame_blink_le s a
        _ ≤ (runEngine ((processFrame s a).1) l).blinkCount := ih _
        _ = (runEngine s (a :: l)).blinkCount := rfl

/-- C2: the confidence score is 100 immediately after session start, and for
every frame sequence it remains within the closed interval [20, 100]. -/
theorem confidence_bounds :
    initSession.confidence = 100
    ∧ ∀ (s : SessionState) (inputs : List (Option LandmarkFrame)),
        20 ≤ s.confidence → s.confidence ≤ 100 →
        20 ≤ (runEngine s inputs).confidence ∧ (runEngine s inputs).confidence ≤ 100 := by
  constructor
  · rfl
  · intro s inputs
    induction inputs generalizing s with
    | nil => exact fun h1 h2 => ⟨h1, h2⟩
    | cons a l ih =>
      intro h1 h2
      have hstep := processFrame_conf_bounds s a h1 h2
      exact ih _ hstep.1 hstep.2

/-- Witness for C2 at the initial session state and the empty frame list. -/
theorem confidence_bounds_witness :
    20 ≤ (runEngine initSession []).confidence ∧ (runEngine initSession []).confidence ≤ 100 :=
  confidence_bounds.2 initSession [] (by norm_num [initSession]) (by norm_num [initSession])

/-- C3: a blink commits exactly when a CLOSED run (average EAR below 0.25) of
length at least 3 is immediately followed by an OPEN frame.  First part: a
single step increments the blink count by one exactly when the frame is OPEN
and the preceding consecutive-CLOSED counter is at least 3, and otherwise
leaves it unchanged.  Second part: from an OPEN state, a run of k CLOSED
frames followed by one OPEN frame increments the blink count by one exactly
when 3 ≤ k — so a 2-frame closure never commits and a 3-frame closure
does. -/
theorem blink_commit_iff :
    (∀ (s : BlinkState) (e : ℚ),
        (blinkStep s e).blinkCount
          = s.blinkCount + (if 0.25 ≤ e ∧ 3 ≤ s.consecLow then 1 else 0))
    ∧ (∀ (s : BlinkState) (run : List ℚ) (e : ℚ),
        s.consecLow = 0 → (∀ x ∈ run, x < 0.25) → 0.25 ≤ e →
        ((run ++ [e]).foldl blinkStep s).blinkCount
          = s.blinkCount + (if 3 ≤ run.length then 1 else 0)) := by
  constructor
  · exact blinkStep_count_eq
  · intro s run e hs hrun he
    rw [List.foldl_append, List.foldl_cons, List.foldl_nil,
      blinkRun_closed run s hrun, blinkStep_count_eq]
    simp only [hs, Nat.zero_add, he, true_and]

/-- Witness for C3: three CLOSED frames (EAR 0.15) then an OPEN frame
(EAR 0.4) commit exactly one blink; two CLOSED frames then an OPEN frame
commit none. -/
theorem blink_commit_iff_witness :
    (([0.15, 0.15, 0.15, 0.4] : List ℚ).foldl blinkStep ⟨0, 0⟩).blinkCount = 1
    ∧ (([0.15, 0.15, 0.4] : List ℚ).foldl blinkStep ⟨0, 0⟩).blinkCount = 0 := by
  have h3 := blink_commit_iff.2 ⟨0, 0⟩ [0.15, 0.15, 0.15] 0.4 rfl (by
    intro x hx
    simp only [List.mem_cons, List.not_mem_nil, or_false] at hx
    rcases hx with h | h | h <;> rw [h] <;> norm_num) (by norm_num)
  have h2 := blink_commit_iff.2 ⟨0, 0⟩ [0.15, 0.15] 0.4 rfl (by
    intro x hx
    simp only [List.mem_cons, List.not_mem_nil, or_false] at hx
    rcases hx with h | h <;> rw [h] <;> norm_num) (by norm_num)
  constructor
  · simpa using h3
  · simpa using h2

/-- C4: every snapshot the engine emits carries a mood score clamped to
[0, 100] and a mood label that is the pure function of that score given by
the fixed bands: Engaged above 70, Neutral above 40 up to 70, Tense at or
below 40 (70 and 40 belong to the lower band). -/
theorem mood_in_range_and_label :
    (∀ (s : SessionState) (input : Option LandmarkFrame) (t : SessionState) (snap : Snapshot),
        processFrame s input = (t, some snap) →
        0 ≤ snap.mood_score ∧ snap.mood_score ≤ 100
          ∧ snap.mood_label = moodLabel snap.mood_score)
    ∧ (∀ q : ℚ,
        (70 < q → moodLabel q = "Engaged")
        ∧ (40 < q → q ≤ 70 → moodLabel q = "Neutral")
        ∧ (q ≤ 40 → moodLabel q = "Tense")) := by
  constructor
  · intro s input t snap h
    cases hg : input.bind extractGeometry with
    | none =>
      rw [show processFrame s input = (s, none) by simp [processFrame, hg]] at h
      exact absurd (congrArg Prod.snd h) (by simp)
    | some g =>
      simp only [processFrame, hg, Prod.mk.injEq, Option.some.injEq] at h
      obtain ⟨ht, hsnap⟩ := h
      subst hsnap
      exact ⟨(moodScore_bounds _ _).1, (moodScore_bounds _ _).2, rfl⟩
  · intro q
    refine ⟨fun h => ?_, fun h1 h2 => ?_, fun h => ?_⟩
    · unfold moodLabel
      rw [if_pos h]
    · unfold moodLabel
      rw [if_neg (not_lt.2 h2), if_pos h1]
    · unfold moodLabel
      rw [if_neg (not_lt.2 (h.trans (by norm_num))), if_neg (not_lt.2 h)]

/-- A default snapshot, only used as the `getD` fallback below. -/
def defaultSnap : Snapshot :=
  { confidence_score := 0, blink_count := 0, head_pitch := 0, head_yaw := 0,
    gaze_deviation := 0, mood_score := 0, mood_label := "Tense",
    mouth_activity := 0, microexpression := none, warning := none }

/-- The snapshot emitted for the concrete all-roles frame `fullFrameEx`. -/
def snapEx : Snapshot := ((processFrame initSession (some fullFrameEx)).2).getD defaultSnap

/-- Witness for C4 at a concrete processed frame and concrete scores in each
band. -/
theorem mood_in_range_and_label_witness :
    (0 ≤ snapEx.mood_score ∧ snapEx.mood_score ≤ 100
      ∧ snapEx.mood_label = moodLabel snapEx.mood_score)
    ∧ moodLabel 80 = "Engaged" ∧ moodLabel 50 = "Neutral" ∧ moodLabel 40 = "Tense" := by
  refine ⟨mood_in_range_and_label.1 initSession (some fullFrameEx)
      (processFrame initSession (some fullFrameEx)).1 snapEx rfl,
    (mood_in_range_and_label.2 80).1 (by norm_num),
    (mood_in_range_and_label.2 50).2.1 (by norm_num) (by norm_num),
    (mood_in_range_and_label.2 40).2.2 (by norm_num)⟩

/-- C5: on a frame that is an explicit no-face signal or misses any required
landmark role, the engine skips scoring entirely: the returned SessionState
is exactly the input state (every field unchanged) and no snapshot — in
particular no user-visible error — is emitted. -/
theorem missing_landmarks_noop :
    ∀ (s : SessionState) (input : Option LandmarkFrame),
      (input = none ∨ ∃ f, input = some f ∧ ∃ r ∈ requiredRoles, List.lookup r f = none) →
      processFrame s input = (s, none) := by
  intro s input h
  rcases h with h | ⟨f, hf, r, hr, hlook⟩
  · subst h
    rfl
  · subst hf
    have hext : extractGeometry f = none := by
      unfold extractGeometry
      rw [if_neg]
      intro hall
      rw [List.all_eq_true] at hall
      have hsome := hall r hr
      rw [hlook] at hsome
      simp at hsome
    simp [processFrame, hext]

/-- Witness for C5: the empty landmark frame (nose tip missing) leaves the
fresh session state untouched and emits nothing. -/
theorem missing_landmarks_noop_witness :
    processFrame initSession (some []) = (initSession, none) :=
  missing_landmarks_noop initSession (some [])
    (Or.inr ⟨[], rfl, Role.noseTip, by decide, rfl⟩)

/-- A concrete analysis payload carrying a confidence score and mouth
activity. -/
def payloadEx : Metrics :=
  { confidence_score := some 55, blink_count := none, head_pitch := none,
    head_yaw := none, gaze_deviation := none, mood_score := none,
    mood_label := none, mouth_activity := some 30, microexpression := none,
    warning := none }

/-- The app state right after ending a fresh session. -/
def endedStateEx : AppState := handleEndSession initialAppState

/-- C6 counterexample: in the frontend, after the session has ended
(`sessionActive = false`), an arriving analysis payload is not a no-op — it
still overwrites the displayed metrics and the lip-sync score and status. -/
theorem frame_after_end_not_noop :
    endedStateEx.sessionActive = false
    ∧ (analysisListener endedStateEx payloadEx 0).metrics.confidence_score
        ≠ endedStateEx.metrics.confidence_score
    ∧ (analysisListener endedStateEx payloadEx 0).lipSyncScore ≠ endedStateEx.lipSyncScore
    ∧ (analysisListener endedStateEx payloadEx 0).lipSyncStatus ≠ endedStateEx.lipSyncStatus := by
  have h1 : (analysisListener endedStateEx payloadEx 0).metrics.confidence_score = some 55 := rfl
  have h2 : endedStateEx.metrics.confidence_score = some 100 := rfl
  have h4 : endedStateEx.lipSyncScore = 100 := rfl
  have h6 : endedStateEx.lipSyncStatus = "Synced" := rfl
  have hscore : max (0 : ℚ) (100 - |(30 : ℚ) - 0|) = 70 := by
    rw [sub_zero, abs_of_nonneg (show (0 : ℚ) ≤ 30 by norm_num),
      show (100 : ℚ) - 30 = 70 from by norm_num]
    exact max_eq_right (by norm_num)
  have h3 : (analysisListener endedStateEx payloadEx 0).lipSyncScore
      = max 0 (100 - |(30 : ℚ) - 0|) := rfl
  have h5 : (analysisListener endedStateEx payloadEx 0).lipSyncStatus
      = (if 70 < max (0 : ℚ) (100 - |(30 : ℚ) - 0|) then "Synced"
         else if 45 < max (0 : ℚ) (100 - |(30 : ℚ) - 0|) then "Loosely Synced"
         else "Off-sync") := rfl
  refine ⟨rfl, ?_, ?_, ?_⟩
  · rw [h1, h2]
    intro hc
    exact absurd (Option.some.inj hc) (by norm_num)
  · rw [h3, hscore, h4]
    norm_num
  · rw [h5, hscore, h6, if_neg (by norm_num), if_pos (by norm_num)]
    decide

/-- C6 (amended): after the session has ended, an arriving analysis payload
leaves the metrics history unchanged, but it still merges the payload into
the displayed metrics (and recomputes lip sync); ending the session itself
retains the accumulated history — it is only cleared by a restart. -/
theorem after_end_history_frozen :
    (∀ (st : AppState) (p : Metrics) (now : ℚ), st.sessionActive = false →
        (analysisListener st p now).metricsHistory = st.metricsHistory)
    ∧ (∀ (st : AppState) (p : Metrics) (now : ℚ),
        (analysisListener st p now).metrics = mergeMetrics st.metrics p)
    ∧ (∀ st : AppState, (handleEndSession st).metricsHistory = st.metricsHistory)
    ∧ (∀ st : AppState, (handleRestart st).metricsHistory = []) := by
  refine ⟨?_, ?_, ?_, ?_⟩
  · intro st p now h
    simp [analysisListener, h]
  · intro st p now
    simp [analysisListener]
  · intro st
    unfold handleEndSession
    split_ifs <;> rfl
  · intro st
    rfl

/-- Witness for C6's amended statement at the concrete ended state. -/
theorem after_end_history_frozen_witness :
    (analysisListener endedStateEx payloadEx 0).metricsHistory = endedStateEx.metricsHistory :=
  after_end_history_frozen.1 endedStateEx payloadEx 0 rfl

/-- C7: at session start the metrics state carries confidence_score 100 and
blink_count 0, and a restart resets it to exactly those values. -/
theorem init_and_restart_metrics :
    initialAppState.metrics.confidence_score = some 100
    ∧ initialAppState.metrics.blink_count = some 0
    ∧ ∀ st : AppState,
        (handleRestart st).metrics.confidence_score = some 100
        ∧ (handleRestart st).metrics.blink_count = some 0 :=
  ⟨rfl, rfl, fun _ => ⟨rfl, rfl⟩⟩

/-- C8: the end-of-session summary is a deterministic function of the
history list, the answer stats and the current lip-sync fallback value: two
calls on equal inputs return equal summaries.  (The embedding is a pure
function, so the call cannot modify the history it is given; the source
likewise only applies non-mutating array operations.) -/
theorem summarize_deterministic :
    ∀ (h₁ h₂ : List HistEntry) (a₁ a₂ : AnswerStats) (l₁ l₂ : ℚ),
      h₁ = h₂ → a₁ = a₂ → l₁ = l₂ →
      summarizeHistory h₁ a₁ l₁ = summarizeHistory h₂ a₂ l₂ := by
  intro h₁ h₂ a₁ a₂ l₁ l₂ hh ha hl
  rw [hh, ha, hl]

/-- Witness for C8 at concrete equal inputs. -/
theorem summarize_deterministic_witness :
    summarizeHistory [] ⟨none, none, none⟩ 100 = summarizeHistory [] ⟨none, none, none⟩ 100 :=
  summarize_deterministic [] [] ⟨none, none, none⟩ ⟨none, none, none⟩ 100 100 rfl rfl rfl

/-- C9: the retained metrics history never exceeds 600 entries: folding any
event sequence through the capped append from an empty history yields
exactly the 600 most recent entries in arrival order (the suffix of the full
sequence), hence at most 600 entries; and one listener step preserves the
600-entry bound. -/
theorem history_capped_600 :
    (∀ es : List HistEntry, es.foldl (capPush 600) [] = es.drop (es.length - 600))
    ∧ (∀ es : List HistEntry, (es.foldl (capPush 600) []).length ≤ 600)
    ∧ (∀ (st : AppState) (p : Metrics) (now : ℚ), st.metricsHistory.length ≤ 600 →
        ((analysisListener st p now).metricsHistory).length ≤ 600) := by
  have hfold := foldl_capPush (α := HistEntry) 600 (by norm_num)
  refine ⟨hfold, ?_, ?_⟩
  · intro es
    rw [hfold es, List.length_drop]
    omega
  · intro st p now hlen
    by_cases hact : st.sessionActive = true
    · simp only [analysisListener, hact, if_true]
      exact capPush_length 600 st.metricsHistory _
    · simp only [analysisListener, hact, if_false]
      exact hlen

/-- Witness for C9's listener step at the initial state. -/
theorem history_capped_600_witness :
    ((analysisListener initialAppState emptyPayload 0).metricsHistory).length ≤ 600 :=
  history_capped_600.2.2 initialAppState emptyPayload 0 (by decide)

/-- C10: for every mouth-activity value m and speech energy e in [0, 100],
computeLipSync returns score max(0, 100 - |m - e|), which lies in [0, 100],
and its status is the pure function of the score given by the bands:
Synced exactly above 70, Loosely Synced exactly above 45 up to 70, Off-sync
exactly at or below 45. -/
theorem computeLipSync_spec :
    ∀ (m e : ℚ), 0 ≤ e → e ≤ 100 →
      (computeLipSync (some m) e).1 = max 0 (100 - |m - e|)
      ∧ 0 ≤ (computeLipSync (some m) e).1
      ∧ (computeLipSync (some m) e).1 ≤ 100
      ∧ ((computeLipSync (some m) e).2 = "Synced" ↔ 70 < (computeLipSync (some m) e).1)
      ∧ ((computeLipSync (some m) e).2 = "Loosely Synced"
          ↔ (45 < (computeLipSync (some m) e).1 ∧ (computeLipSync (some m) e).1 ≤ 70))
      ∧ ((computeLipSync (some m) e).2 = "Off-sync" ↔ (computeLipSync (some m) e).1 ≤ 45) := by
  intro m e he1 he2
  have h1 : (computeLipSync (some m) e).1 = max 0 (100 - |m - e|) := rfl
  have h2 : (computeLipSync (some m) e).2
      = (if 70 < max 0 (100 - |m - e|) then "Synced"
         else if 45 < max 0 (100 - |m - e|) then "Loosely Synced" else "Off-sync") := rfl
  rw [h1, h2]
  refine ⟨rfl, le_max_left _ _,
    max_le (by norm_num) (sub_le_self _ (abs_nonneg _)), ?_, ?_, ?_⟩
  all_goals by_cases c1 : 70 < max 0 (100 - |m - e|)
  · rw [if_pos c1]
    exact iff_of_true rfl c1
  · by_cases c2 : 45 < max 0 (100 - |m - e|)
    · rw [if_neg c1, if_pos c2]
      exact iff_of_false (by decide) c1
    · rw [if_neg c1, if_neg c2]
      exact iff_of_false (by decide) c1
  · rw [if_pos c1]
    exact iff_of_false (by decide) (fun hc => absurd c1 (not_lt.2 hc.2))
  · by_cases c2 : 45 < max 0 (100 - |m - e|)
    · rw [if_neg c1, if_pos c2]
      exact iff_of_true rfl ⟨c2, not_lt.1 c1⟩
    · rw [if_neg c1, if_neg c2]
      exact iff_of_false (by decide) (fun hc => absurd hc.1 c2)
  · rw [if_pos c1]
    exact iff_of_false (by decide) (fun hc => absurd c1 (not_lt.2 (hc.trans (by norm_num))))
  · by_cases c2 : 45 < max 0 (100 - |m - e|)
    · rw [if_neg c1, if_pos c2]
      exact iff_of_false (by decide) (fun hc => absurd c2 (not_lt.2 hc))
    · rw [if_neg c1, if_neg c2]
      exact iff_of_true rfl (not_lt.1 c2)

/-- Witness for C10 at m = e = 50: perfect score, Synced. -/
theorem computeLipSync_spec_witness : (computeLipSync (some 50) 50).2 = "Synced" := by
  have h := (computeLipSync_spec 50 50 (by norm_num) (by norm_num)).2.2.2.1
  refine h.mpr ?_
  have hv : (computeLipSync (some 50) 50).1 = max (0 : ℚ) (100 - |(50 : ℚ) - 50|) := rfl
  rw [hv, sub_self, abs_zero, sub_zero, max_eq_right (show (0 : ℚ) ≤ 100 by norm_num)]
  norm_num
